import Mathlib

/-!
Shallow embedding of the swap-cycle runner from the
`blockchain_trading_volume_generator` repository.

The repository has three near-duplicate variants:
* `polygon-bot/volume_bot.py`:      `PolygonVolumeBot` (QuickSwap router, no retry);
* `solana-bot/volume_bot.py`:       `SolanaVolumeBot` (Jupiter, no retry, timeout
  returns a success tuple);
* `solana-bot-ultra/volume_bot.py`: `SolanaVolumeBot` (Jupiter, bounded retry).

Token amounts appear in the Python code as floats; they are modelled here as
exact rationals, so arithmetic identities such as `x * 0.99` are exact.  All
chain interaction (quote, submission, confirmation, balance queries) is
delegated to third-party SDKs in the source; those external calls are modelled
as oracle inputs (`AttemptOutcome` values and queried balances) supplied to the
embedded functions, one per call site, exactly at the points where the source
consults them.  Wall-clock quantities (timestamps, durations, tx rates, sleeps)
are omitted: they do not affect any control flow or accumulated statistic.
-/

namespace VolumeBot

/-- Python `int()` applied to a non-integral number truncates toward zero.
`pyInt q` is the truncation toward zero of the rational `q`. -/
def pyInt (q : ℚ) : ℤ :=
  if q.num < 0 then -(((-q.num).toNat / q.den : ℕ) : ℤ)
  else ((q.num.toNat / q.den : ℕ) : ℤ)

/-- Outcome of one attempt of a swap leg, as decided by the external
exchange gateway (quote + submission + confirmation).  Raw integer amounts are
carried in the chain's smallest unit (wei / lamports), as the APIs return them:

* `fail`: any exception before or at submission, a send failure, or a failed
  receipt status — the attempt produced no confirmed transaction;
* `timeout`: the submission was accepted (a signature exists and the quote gave
  `outLamports`) but confirmation did not arrive within the bounded wait;
* `confirmed`: the transaction confirmed; `feeRaw` is the network fee in the
  smallest native unit (wei on Polygon, lamports on Solana). -/
inductive AttemptOutcome where
  | fail : AttemptOutcome
  | timeout (sig : ℕ) (outLamports : ℤ) : AttemptOutcome
  | confirmed (sig : ℕ) (outLamports : ℤ) (feeRaw : ℤ) : AttemptOutcome
deriving Repr, DecidableEq

/-- Whether an attempt outcome is a confirmed transaction. -/
def AttemptOutcome.isConfirmed : AttemptOutcome → Bool
  | .confirmed _ _ _ => true
  | _ => false

/-- Whether an attempt outcome is a confirmation timeout. -/
def AttemptOutcome.isTimeout : AttemptOutcome → Bool
  | .timeout _ _ => true
  | _ => false

/-- One recorded transaction, as appended to `self.transactions`.
The Python dict fields `timestamp` is omitted (wall clock); `tx_hash` /
`signature` is the abstract reference `txRef`.  The ultra variant additionally
records the priority fee and the (1-based) attempt number; the other two
variants leave those at their defaults. -/
structure SwapRecord where
  txRef : ℕ
  fromToken : String
  toToken : String
  amountIn : ℚ
  amountOut : ℚ
  fee : ℚ
  priorityFee : ℚ := 0
  attempt : ℕ := 1
deriving Repr, DecidableEq

/-- The mutable statistics fields of the bot objects.  `total_priority_fees`
and `retry_count` exist only in the solana-ultra variant; the other variants
never touch them. -/
structure Stats where
  total_volume : ℚ := 0
  total_fees_paid : ℚ := 0
  total_priority_fees : ℚ := 0
  transaction_count : ℕ := 0
  transactions : List SwapRecord := []
  retry_count : ℕ := 0
deriving Repr, DecidableEq

/-- Fresh statistics, as set by `__init__`. -/
def freshStats : Stats := {}

/-- Invariant: `total_volume` equals the sum of `amount_in` over all recorded
SwapRecords. -/
def volumeInv (s : Stats) : Prop :=
  s.total_volume = (s.transactions.map SwapRecord.amountIn).sum

/-- Invariant: `transaction_count` equals the length of the recorded
SwapRecord list. -/
def countInv (s : Stats) : Prop :=
  s.transaction_count = s.transactions.length

/-- The cycle counters local to `run`, together with the statistics object. -/
structure RunState where
  stats : Stats
  successful_cycles : ℕ := 0
  failed_cycles : ℕ := 0
deriving Repr, DecidableEq

/-- The `summary` part of the final JSON report (`_generate_report`), minus
wall-clock fields (duration, tx rate) and constant strings already fixed by
the variant.  `transactions` is the ordered record list. -/
structure Report where
  network : String
  start_balance : ℚ
  final_balance : ℚ
  total_volume : ℚ
  transaction_count : ℕ
  successful_cycles : ℕ
  failed_cycles : ℕ
  volume_multiplier : ℚ
  capital_loss_percentage : ℚ
  retry_count : ℕ := 0
  transactions : List SwapRecord := []
deriving Repr, DecidableEq

namespace Polygon

/-- USDC contract address on Polygon. -/
def USDC_ADDRESS : String := "0x2791Bca1f2de4661ED88A30C99A7a9449Aa84174"

/-- USDT contract address on Polygon. -/
def USDT_ADDRESS : String := "0xc2132D05D31c914a87C6611C10748AEb04B58e8F"

/-- `PolygonVolumeBot.swap_tokens`: a single gateway attempt, no retry.

The external steps (quote via `getAmountsOut`, build/sign/send, receipt wait)
are summarised by `outcome`; a `confirmed` outcome carries the quoted output
amount in wei (`getAmountsOut` result) and the gas fee in wei
(`gasUsed * effectiveGasPrice`).  A `timeout` of `wait_for_transaction_receipt`
raises an exception in the source, so it lands in the same `None` branch as any
other failure.  Returns the updated statistics and
`some (tx_hash, amount_out, gas_fee_matic)` or `none` on failure. -/
def swap_tokens (outcome : AttemptOutcome) (token_in token_out : String)
    (amount_in : ℚ) (decimals_in decimals_out : ℕ) (s : Stats) :
    Stats × Option (ℕ × ℚ × ℚ) :=
  let amount_in_wei := pyInt (amount_in * 10 ^ decimals_in)
  if amount_in_wei = 0 then (s, none)
  else
    match outcome with
    | .confirmed tx expected_out fee_wei =>
        let gas_fee_matic : ℚ := (fee_wei : ℚ) / 10 ^ 18
        let amount_out : ℚ := (expected_out : ℚ) / 10 ^ decimals_out
        ({ s with
            total_volume := s.total_volume + amount_in,
            total_fees_paid := s.total_fees_paid + gas_fee_matic,
            transaction_count := s.transaction_count + 1,
            transactions := s.transactions ++
              [{ txRef := tx, fromToken := token_in, toToken := token_out,
                 amountIn := amount_in, amountOut := amount_out,
                 fee := gas_fee_matic }] },
          some (tx, amount_out, gas_fee_matic))
    | _ => (s, none)

/-- The oracle inputs one cycle of `PolygonVolumeBot.run` consumes: the two
balance queries and the two gateway leg outcomes, in program order. -/
structure CycleEnv where
  usdc_balance : ℚ
  leg1 : AttemptOutcome
  usdt_balance : ℚ
  leg2 : AttemptOutcome
deriving Repr, DecidableEq

/-- Leg-1 swap size: the full queried balance, or the configured fixed amount
capped at the balance (`usdc_balance if use_full_balance else
min(fixed_amount, usdc_balance)`). -/
def leg1Size (usdc_balance : ℚ) (use_full_balance : Bool) (fixed_amount : ℚ) : ℚ :=
  if use_full_balance then usdc_balance else min fixed_amount usdc_balance

/-- Leg-2 swap size: 99% of the freshly queried USDT balance
(`usdt_balance * 0.99`). -/
def leg2Size (usdt_balance : ℚ) : ℚ := usdt_balance * (99 / 100)

/-- One iteration of the cycle loop in `PolygonVolumeBot.run`. -/
def runCycle (env : CycleEnv) (use_full_balance : Bool) (fixed_amount : ℚ)
    (rs : RunState) : RunState :=
  if env.usdc_balance < 1 / 10 then
    { rs with failed_cycles := rs.failed_cycles + 1 }
  else
    let swap_amount := leg1Size env.usdc_balance use_full_balance fixed_amount
    let r1 := swap_tokens env.leg1 USDC_ADDRESS USDT_ADDRESS swap_amount 6 6 rs.stats
    match r1.2 with
    | none => { rs with stats := r1.1, failed_cycles := rs.failed_cycles + 1 }
    | some _ =>
        let swap_amount2 := leg2Size env.usdt_balance
        let r2 := swap_tokens env.leg2 USDT_ADDRESS USDC_ADDRESS swap_amount2 6 6 r1.1
        match r2.2 with
        | none => { rs with stats := r2.1, failed_cycles := rs.failed_cycles + 1 }
        | some _ =>
            { rs with stats := r2.1, successful_cycles := rs.successful_cycles + 1 }

/-- The whole cycle loop: one `CycleEnv` per iteration (`num_cycles` is the
length of the list). -/
def runCycles (envs : List CycleEnv) (use_full_balance : Bool)
    (fixed_amount : ℚ) (rs : RunState) : RunState :=
  envs.foldl (fun rs env => runCycle env use_full_balance fixed_amount rs) rs

/-- `PolygonVolumeBot._generate_report`: the summary document built at the end
of `run`.  `final_usdc` is the freshly queried final balance. -/
def generate_report (initial_usdc final_usdc : ℚ)
    (successful_cycles failed_cycles : ℕ) (s : Stats) : Report :=
  let capital_lost := initial_usdc - final_usdc
  { network := "Polygon"
    start_balance := initial_usdc
    final_balance := final_usdc
    total_volume := s.total_volume
    transaction_count := s.transaction_count
    successful_cycles := successful_cycles
    failed_cycles := failed_cycles
    volume_multiplier := if 0 < initial_usdc then s.total_volume / initial_usdc else 0
    capital_loss_percentage :=
      if 0 < initial_usdc then capital_lost / initial_usdc * 100 else 0
    transactions := s.transactions }

/-- `PolygonVolumeBot.run`.  Oracle inputs: the initial USDC and MATIC balance
queries, the two approval call results, the per-cycle environments, and the
final USDC balance query used by the report.  Returns `none` when a startup
check aborts before the loop (insufficient USDC, or a failed approval; the low
MATIC check is only a console warning), otherwise the final loop state and the
emitted report. -/
def run (initial_usdc _matic_balance : ℚ) (approve_usdc approve_usdt : Bool)
    (envs : List CycleEnv) (use_full_balance : Bool) (fixed_amount : ℚ)
    (final_usdc : ℚ) (s : Stats) : Option (RunState × Report) :=
  if initial_usdc < 1 then none
  else if !approve_usdc then none
  else if !approve_usdt then none
  else
    let rs := runCycles envs use_full_balance fixed_amount ⟨s, 0, 0⟩
    some (rs, generate_report initial_usdc final_usdc
      rs.successful_cycles rs.failed_cycles rs.stats)

end Polygon

namespace SolanaOrig

/-- Native USDC mint on Solana. -/
def USDC_MINT : String := "EPjFWdd5AufqSSqeM2qN1xzybapC8G4wEGGkZwyTDt1v"

/-- USDT mint on Solana. -/
def USDT_MINT : String := "Es9vMFrzaCERmJfrF4H2FYD4KCoNkY11McCe8BenwNYB"

/-- `SolanaVolumeBot.swap_tokens_jupiter` of the original solana variant: a
single attempt, no retry.  A `confirmed` outcome carries the quoted output in
lamports (`quote_data outAmount`) and the network fee in lamports from the
transaction meta.  When the confirmation poll exhausts its 30-second window,
the source prints a warning and returns
`(signature, expected_out, 0.000005)` — a success tuple — without updating any
statistic or recording a transaction. -/
def swap_tokens_jupiter (outcome : AttemptOutcome) (input_mint output_mint : String)
    (amount : ℚ) (s : Stats) : Stats × Option (ℕ × ℚ × ℚ) :=
  let amount_lamports := pyInt (amount * 10 ^ 6)
  if amount_lamports = 0 then (s, none)
  else
    match outcome with
    | .fail => (s, none)
    | .timeout sig out_lamports =>
        (s, some (sig, (out_lamports : ℚ) / 10 ^ 6, 5 / 10 ^ 6))
    | .confirmed sig out_lamports fee_lamports =>
        let fee_sol : ℚ := (fee_lamports : ℚ) / 10 ^ 9
        let expected_out : ℚ := (out_lamports : ℚ) / 10 ^ 6
        ({ s with
            total_volume := s.total_volume + amount,
            total_fees_paid := s.total_fees_paid + fee_sol,
            transaction_count := s.transaction_count + 1,
            transactions := s.transactions ++
              [{ txRef := sig, fromToken := input_mint, toToken := output_mint,
                 amountIn := amount, amountOut := expected_out, fee := fee_sol }] },
          some (sig, expected_out, fee_sol))

end SolanaOrig

namespace SolanaUltra

/-- Native USDC mint on Solana. -/
def USDC_MINT : String := "EPjFWdd5AufqSSqeM2qN1xzybapC8G4wEGGkZwyTDt1v"

/-- Bridged USDC.e mint on Solana. -/
def USDCE_MINT : String := "A9mUU4qviSctJVPJdBJW3qp3HnZ1utdhKi1Qpr4BWK5r"

/-- `self.max_retries`, set in `__init__` and never changed. -/
def max_retries : ℕ := 3

/-- The body of the `for attempt in range(self.max_retries)` loop of the
ultra variant's `swap_tokens_jupiter`, indexed by the number of remaining loop
iterations (`remaining = max_retries - attempt`).  The per-attempt gateway
result is `oracle attempt`.  In the source, a confirmation timeout raises an
exception, so `timeout` and `fail` both land in the `except` branch: if
another iteration remains, `retry_count` is incremented and the loop
continues (after a fixed `retry_delay` sleep); on the last iteration the call
returns `None`. -/
def swapLoop (oracle : ℕ → AttemptOutcome) (input_mint output_mint : String)
    (amount : ℚ) (priority_fee : ℕ) :
    (remaining : ℕ) → Stats → Stats × Option (ℕ × ℚ × ℚ)
  | 0, s => (s, none)
  | remaining + 1, s =>
      let attempt := max_retries - (remaining + 1)
      let amount_lamports := pyInt (amount * 10 ^ 6)
      if amount_lamports = 0 then (s, none)
      else
        match oracle attempt with
        | .confirmed sig out_lamports fee_lamports =>
            let fee_sol : ℚ := (fee_lamports : ℚ) / 10 ^ 9
            let priority_fee_sol : ℚ := (priority_fee : ℚ) / 10 ^ 9
            let expected_out : ℚ := (out_lamports : ℚ) / 10 ^ 6
            ({ s with
                total_volume := s.total_volume + amount,
                total_fees_paid := s.total_fees_paid + fee_sol,
                total_priority_fees := s.total_priority_fees + priority_fee_sol,
                transaction_count := s.transaction_count + 1,
                transactions := s.transactions ++
                  [{ txRef := sig, fromToken := input_mint, toToken := output_mint,
                     amountIn := amount, amountOut := expected_out, fee := fee_sol,
                     priorityFee := priority_fee_sol, attempt := attempt + 1 }] },
              some (sig, expected_out, fee_sol))
        | _ =>
            if attempt < max_retries - 1 then
              swapLoop oracle input_mint output_mint amount priority_fee remaining
                { s with retry_count := s.retry_count + 1 }
            else (s, none)

/-- `SolanaVolumeBot.swap_tokens_jupiter` of the ultra variant: up to
`max_retries` attempts with a fixed delay between them. -/
def swap_tokens_jupiter (oracle : ℕ → AttemptOutcome)
    (input_mint output_mint : String) (amount : ℚ) (priority_fee : ℕ)
    (s : Stats) : Stats × Option (ℕ × ℚ × ℚ) :=
  swapLoop oracle input_mint output_mint amount priority_fee max_retries s

/-- The oracle inputs one cycle of the ultra `run` consumes: the two balance
queries and, for each leg, the per-attempt gateway outcomes. -/
structure CycleEnv where
  usdc_balance : ℚ
  leg1 : ℕ → AttemptOutcome
  usdce_balance : ℚ
  leg2 : ℕ → AttemptOutcome

/-- Leg-1 swap size of the ultra variant: 99.9% of the queried balance, or the
fixed amount capped at the balance (`usdc_balance * 0.999 if use_full_balance
else min(fixed_amount, usdc_balance)`). -/
def leg1Size (usdc_balance : ℚ) (use_full_balance : Bool) (fixed_amount : ℚ) : ℚ :=
  if use_full_balance then usdc_balance * (999 / 1000)
  else min fixed_amount usdc_balance

/-- Leg-2 swap size of the ultra variant: 99.9% of the freshly queried USDC.e
balance (`usdce_balance * 0.999`). -/
def leg2Size (usdce_balance : ℚ) : ℚ := usdce_balance * (999 / 1000)

/-- One iteration of the cycle loop in the ultra variant's `run`. -/
def runCycle (env : CycleEnv) (use_full_balance : Bool) (fixed_amount : ℚ)
    (priority_fee : ℕ) (rs : RunState) : RunState :=
  if env.usdc_balance < 1 / 100 then
    { rs with failed_cycles := rs.failed_cycles + 1 }
  else
    let swap_amount := leg1Size env.usdc_balance use_full_balance fixed_amount
    let r1 := swap_tokens_jupiter env.leg1 USDC_MINT USDCE_MINT swap_amount
      priority_fee rs.stats
    match r1.2 with
    | none => { rs with stats := r1.1, failed_cycles := rs.failed_cycles + 1 }
    | some _ =>
        let swap_amount2 := leg2Size env.usdce_balance
        let r2 := swap_tokens_jupiter env.leg2 USDCE_MINT USDC_MINT swap_amount2
          priority_fee r1.1
        match r2.2 with
        | none => { rs with stats := r2.1, failed_cycles := rs.failed_cycles + 1 }
        | some _ =>
            { rs with stats := r2.1, successful_cycles := rs.successful_cycles + 1 }

/-- The whole cycle loop of the ultra variant. -/
def runCycles (envs : List CycleEnv) (use_full_balance : Bool)
    (fixed_amount : ℚ) (priority_fee : ℕ) (rs : RunState) : RunState :=
  envs.foldl (fun rs env => runCycle env use_full_balance fixed_amount priority_fee rs) rs

/-- The ultra variant's `_generate_report` summary (wall-clock fields and
constant strings omitted). -/
def generate_report (initial_usdc final_usdc : ℚ)
    (successful_cycles failed_cycles : ℕ) (s : Stats) : Report :=
  let capital_lost := initial_usdc - final_usdc
  { network := "Solana"
    start_balance := initial_usdc
    final_balance := final_usdc
    total_volume := s.total_volume
    transaction_count := s.transaction_count
    successful_cycles := successful_cycles
    failed_cycles := failed_cycles
    volume_multiplier := if 0 < initial_usdc then s.total_volume / initial_usdc else 0
    capital_loss_percentage :=
      if 0 < initial_usdc then capital_lost / initial_usdc * 100 else 0
    retry_count := s.retry_count
    transactions := s.transactions }

/-- The ultra variant's `run`.  No token approvals exist on Solana; the only
startup abort is an initial USDC balance below 1 (the low-SOL check is only a
console warning). -/
def run (initial_usdc _sol_balance : ℚ) (envs : List CycleEnv)
    (use_full_balance : Bool) (fixed_amount : ℚ) (priority_fee : ℕ)
    (final_usdc : ℚ) (s : Stats) : Option (RunState × Report) :=
  if initial_usdc < 1 then none
  else
    let rs := runCycles envs use_full_balance fixed_amount priority_fee ⟨s, 0, 0⟩
    some (rs, generate_report initial_usdc final_usdc
      rs.successful_cycles rs.failed_cycles rs.stats)

end SolanaUltra

/-! ### Helper notions and lemmas about the embedded functions -/

/-- The effect of a confirmed swap on the statistics object: add the input
amount to the volume, the fees to the fee totals, bump the transaction count
and append the record.  Every confirmed-swap branch of the three variants
updates the statistics in exactly this way (the two variants without priority
fees have `r.priorityFee = 0`). -/
def pushRecord (s : Stats) (r : SwapRecord) : Stats :=
  { s with
      total_volume := s.total_volume + r.amountIn,
      total_fees_paid := s.total_fees_paid + r.fee,
      total_priority_fees := s.total_priority_fees + r.priorityFee,
      transaction_count := s.transaction_count + 1,
      transactions := s.transactions ++ [r] }

/-- Incrementing only the retry counter. -/
def bumpRetry (s : Stats) (k : ℕ) : Stats :=
  { s with retry_count := s.retry_count + k }

theorem bumpRetry_zero (s : Stats) : bumpRetry s 0 = s := by
  simp [bumpRetry]

theorem volumeInv_pushRecord {s : Stats} (h : volumeInv s) (r : SwapRecord) :
    volumeInv (pushRecord s r) := by
  simp [volumeInv, pushRecord] at h ⊢
  simp [h]

theorem countInv_pushRecord {s : Stats} (h : countInv s) (r : SwapRecord) :
    countInv (pushRecord s r) := by
  simp [countInv, pushRecord] at h ⊢
  simp [h]

theorem volumeInv_bumpRetry {s : Stats} (h : volumeInv s) (k : ℕ) :
    volumeInv (bumpRetry s k) := h

theorem countInv_bumpRetry {s : Stats} (h : countInv s) (k : ℕ) :
    countInv (bumpRetry s k) := h

theorem volumeInv_freshStats : volumeInv freshStats := by
  simp [volumeInv, freshStats]

theorem countInv_freshStats : countInv freshStats := by
  simp [countInv, freshStats]

namespace Polygon

/-- A polygon swap leg goes through iff the amount converts to a nonzero wei
value and the gateway confirms. -/
def legOk (o : AttemptOutcome) (amount : ℚ) (decimals : ℕ) : Bool :=
  (pyInt (amount * 10 ^ decimals) != 0) && o.isConfirmed

theorem swap_tokens_none {o : AttemptOutcome} {amount : ℚ} {decimals_in : ℕ}
    (h : legOk o amount decimals_in = false) (tin tout : String)
    (dout : ℕ) (s : Stats) :
    swap_tokens o tin tout amount decimals_in dout s = (s, none) := by
  simp only [legOk, Bool.and_eq_false_iff, bne_eq_false_iff_eq] at h
  unfold swap_tokens
  rcases h with h | h
  · simp [h]
  · cases o <;> simp_all [AttemptOutcome.isConfirmed]

theorem swap_tokens_some {o : AttemptOutcome} {amount : ℚ} {decimals_in : ℕ}
    (h : legOk o amount decimals_in = true) (tin tout : String)
    (dout : ℕ) (s : Stats) :
    ∃ r : SwapRecord, ∃ res : ℕ × ℚ × ℚ,
      swap_tokens o tin tout amount decimals_in dout s = (pushRecord s r, some res) ∧
      r.amountIn = amount := by
  simp only [legOk, Bool.and_eq_true, bne_iff_ne] at h
  obtain ⟨hz, hc⟩ := h
  cases o with
  | fail => simp [AttemptOutcome.isConfirmed] at hc
  | timeout sig outl => simp [AttemptOutcome.isConfirmed] at hc
  | confirmed sig outl feel =>
      refine ⟨{ txRef := sig, fromToken := tin, toToken := tout, amountIn := amount,
                amountOut := (outl : ℚ) / 10 ^ dout, fee := (feel : ℚ) / 10 ^ 18 },
              ⟨sig, (outl : ℚ) / 10 ^ dout, (feel : ℚ) / 10 ^ 18⟩, ?_, rfl⟩
      unfold swap_tokens
      simp only [hz, if_false]
      refine Prod.ext ?_ rfl
      simp [pushRecord]

theorem swap_tokens_isSome (o : AttemptOutcome) (tin tout : String)
    (amount : ℚ) (decimals_in dout : ℕ) (s : Stats) :
    (swap_tokens o tin tout amount decimals_in dout s).2.isSome
      = legOk o amount decimals_in := by
  by_cases h : legOk o amount decimals_in
  · obtain ⟨r, res, hs, _⟩ := swap_tokens_some h tin tout dout s
    simp [hs, h]
  · simp [swap_tokens_none (Bool.of_not_eq_true h) tin tout dout s,
      Bool.of_not_eq_true h]

end Polygon

namespace SolanaOrig

theorem swap_tokens_jupiter_fail {amount : ℚ} (im om : String) (s : Stats) :
    swap_tokens_jupiter .fail im om amount s = (s, none) := by
  unfold swap_tokens_jupiter
  by_cases hz : pyInt (amount * 10 ^ 6) = 0 <;> simp [hz]

theorem swap_tokens_jupiter_dust {amount : ℚ}
    (hz : pyInt (amount * 10 ^ 6) = 0) (o : AttemptOutcome) (im om : String)
    (s : Stats) :
    swap_tokens_jupiter o im om amount s = (s, none) := by
  unfold swap_tokens_jupiter
  simp [hz]

/-- On a confirmation timeout, the original variant returns a success tuple
(signature, quoted output, fee estimate 0.000005 SOL) without touching any
statistic. -/
theorem swap_tokens_jupiter_timeout {amount : ℚ}
    (hz : pyInt (amount * 10 ^ 6) ≠ 0) (sig : ℕ) (outl : ℤ) (im om : String)
    (s : Stats) :
    swap_tokens_jupiter (.timeout sig outl) im om amount s
      = (s, some (sig, (outl : ℚ) / 10 ^ 6, 5 / 10 ^ 6)) := by
  unfold swap_tokens_jupiter
  simp [hz]

theorem swap_tokens_jupiter_confirmed {amount : ℚ}
    (hz : pyInt (amount * 10 ^ 6) ≠ 0) (sig : ℕ) (outl feel : ℤ)
    (im om : String) (s : Stats) :
    swap_tokens_jupiter (.confirmed sig outl feel) im om amount s
      = (pushRecord s
          { txRef := sig, fromToken := im, toToken := om, amountIn := amount,
            amountOut := (outl : ℚ) / 10 ^ 6, fee := (feel : ℚ) / 10 ^ 9 },
         some (sig, (outl : ℚ) / 10 ^ 6, (feel : ℚ) / 10 ^ 9)) := by
  unfold swap_tokens_jupiter
  simp only [hz, if_false]
  refine Prod.ext ?_ rfl
  simp [pushRecord]

end SolanaOrig

namespace SolanaUltra

theorem swapLoop_dust {amount : ℚ} (hz : pyInt (amount * 10 ^ 6) = 0)
    (oracle : ℕ → AttemptOutcome) (im om : String) (pf : ℕ) (r : ℕ) (s : Stats) :
    swapLoop oracle im om amount pf (r + 1) s = (s, none) := by
  unfold swapLoop
  simp [hz]

/-- The record the ultra variant pushes for a swap confirmed on the
(0-based) attempt `a`. -/
def mkUltraRecord (im om : String) (amount : ℚ) (pf : ℕ) (a sig : ℕ)
    (outl feel : ℤ) : SwapRecord :=
  { txRef := sig, fromToken := im, toToken := om, amountIn := amount,
    amountOut := (outl : ℚ) / 10 ^ 6, fee := (feel : ℚ) / 10 ^ 9,
    priorityFee := (pf : ℚ) / 10 ^ 9, attempt := a + 1 }

theorem swapLoop_confirmed {amount : ℚ} (hz : pyInt (amount * 10 ^ 6) ≠ 0)
    {oracle : ℕ → AttemptOutcome} {r : ℕ} {sig : ℕ} {outl feel : ℤ}
    (hc : oracle (max_retries - (r + 1)) = .confirmed sig outl feel)
    (im om : String) (pf : ℕ) (s : Stats) :
    swapLoop oracle im om amount pf (r + 1) s
      = (pushRecord s (mkUltraRecord im om amount pf (max_retries - (r + 1)) sig outl feel),
         some (sig, (outl : ℚ) / 10 ^ 6, (feel : ℚ) / 10 ^ 9)) := by
  unfold swapLoop
  simp only [hz, if_false, hc]
  refine Prod.ext ?_ rfl
  simp [pushRecord, mkUltraRecord]

theorem swapLoop_retry {amount : ℚ} (hz : pyInt (amount * 10 ^ 6) ≠ 0)
    {oracle : ℕ → AttemptOutcome} {r : ℕ}
    (hc : (oracle (max_retries - (r + 1))).isConfirmed = false)
    (hlt : max_retries - (r + 1) < max_retries - 1)
    (im om : String) (pf : ℕ) (s : Stats) :
    swapLoop oracle im om amount pf (r + 1) s
      = swapLoop oracle im om amount pf r (bumpRetry s 1) := by
  conv_lhs => rw [swapLoop]
  cases h : oracle (max_retries - (r + 1)) with
  | confirmed sig outl feel => rw [h] at hc; simp [AttemptOutcome.isConfirmed] at hc
  | fail => simp [hz, hlt, bumpRetry]
  | timeout sig outl => simp [hz, hlt, bumpRetry]

theorem swapLoop_lastFail {amount : ℚ} (hz : pyInt (amount * 10 ^ 6) ≠ 0)
    {oracle : ℕ → AttemptOutcome} {r : ℕ}
    (hc : (oracle (max_retries - (r + 1))).isConfirmed = false)
    (hlt : ¬ max_retries - (r + 1) < max_retries - 1)
    (im om : String) (pf : ℕ) (s : Stats) :
    swapLoop oracle im om amount pf (r + 1) s = (s, none) := by
  conv_lhs => rw [swapLoop]
  cases h : oracle (max_retries - (r + 1)) with
  | confirmed sig outl feel => rw [h] at hc; simp [AttemptOutcome.isConfirmed] at hc
  | fail => simp [hz, hlt, h]
  | timeout sig outl => simp [hz, hlt, h]

/-- Full case analysis of the ultra swap call: it either leaves the
statistics unchanged apart from bumping the retry counter by at most
`max_retries - 1` and returns `none`, or it pushes exactly one record with
`amountIn = amount` on top of a retry bump and returns `some`. -/
theorem swap_tokens_jupiter_cases (oracle : ℕ → AttemptOutcome)
    (im om : String) (amount : ℚ) (pf : ℕ) (s : Stats) :
    (∃ k ≤ max_retries - 1,
        swap_tokens_jupiter oracle im om amount pf s = (bumpRetry s k, none))
    ∨ (∃ k ≤ max_retries - 1, ∃ r : SwapRecord, ∃ res : ℕ × ℚ × ℚ,
        swap_tokens_jupiter oracle im om amount pf s
          = (pushRecord (bumpRetry s k) r, some res) ∧ r.amountIn = amount) := by
  by_cases hz : pyInt (amount * 10 ^ 6) = 0
  · exact Or.inl ⟨0, by omega, by
      rw [bumpRetry_zero]
      exact swapLoop_dust hz oracle im om pf 2 s⟩
  · unfold swap_tokens_jupiter
    show _ ∨ _
    by_cases h0 : (oracle 0).isConfirmed
    · obtain ⟨sig, outl, feel, hc⟩ : ∃ sig outl feel,
          oracle 0 = .confirmed sig outl feel := by
        cases h : oracle 0 <;> rw [h] at h0 <;>
          simp [AttemptOutcome.isConfirmed] at h0
        exact ⟨_, _, _, rfl⟩
      refine Or.inr ⟨0, by omega,
        mkUltraRecord im om amount pf (max_retries - (2 + 1)) sig outl feel,
        (sig, (outl : ℚ) / 10 ^ 6, (feel : ℚ) / 10 ^ 9), ?_, rfl⟩
      rw [bumpRetry_zero]
      exact swapLoop_confirmed hz (r := 2) hc im om pf s
    · rw [show max_retries = 2 + 1 from rfl,
        swapLoop_retry hz (r := 2) (by simpa using Bool.of_not_eq_true h0) (by decide)
          im om pf s]
      by_cases h1 : (oracle 1).isConfirmed
      · obtain ⟨sig, outl, feel, hc⟩ : ∃ sig outl feel,
            oracle 1 = .confirmed sig outl feel := by
          cases h : oracle 1 <;> rw [h] at h1 <;>
            simp [AttemptOutcome.isConfirmed] at h1
          exact ⟨_, _, _, rfl⟩
        refine Or.inr ⟨1, by omega,
          mkUltraRecord im om amount pf (max_retries - (1 + 1)) sig outl feel,
          (sig, (outl : ℚ) / 10 ^ 6, (feel : ℚ) / 10 ^ 9), ?_, rfl⟩
        exact swapLoop_confirmed hz (r := 1) hc im om pf (bumpRetry s 1)
      · rw [swapLoop_retry hz (r := 1) (by simpa using Bool.of_not_eq_true h1) (by decide)
          im om pf (bumpRetry s 1)]
        have hbb : bumpRetry (bumpRetry s 1) 1 = bumpRetry s 2 := by
          simp [bumpRetry]
        rw [hbb]
        by_cases h2 : (oracle 2).isConfirmed
        · obtain ⟨sig, outl, feel, hc⟩ : ∃ sig outl feel,
              oracle 2 = .confirmed sig outl feel := by
            cases h : oracle 2 <;> rw [h] at h2 <;>
              simp [AttemptOutcome.isConfirmed] at h2
            exact ⟨_, _, _, rfl⟩
          refine Or.inr ⟨2, by omega,
            mkUltraRecord im om amount pf (max_retries - (0 + 1)) sig outl feel,
            (sig, (outl : ℚ) / 10 ^ 6, (feel : ℚ) / 10 ^ 9), ?_, rfl⟩
          exact swapLoop_confirmed hz (r := 0) hc im om pf (bumpRetry s 2)
        · exact Or.inl ⟨2, by omega,
            swapLoop_lastFail hz (r := 0) (by simpa using Bool.of_not_eq_true h2)
              (by decide) im om pf (bumpRetry s 2)⟩

/-- If no attempt confirms, the ultra swap call returns `none` after
exhausting its attempts. -/
theorem swap_tokens_jupiter_exhausted {oracle : ℕ → AttemptOutcome}
    (h : ∀ i, i < max_retries → (oracle i).isConfirmed = false)
    (im om : String) (amount : ℚ) (pf : ℕ) (s : Stats) :
    (swap_tokens_jupiter oracle im om amount pf s).2 = none := by
  by_cases hz : pyInt (amount * 10 ^ 6) = 0
  · unfold swap_tokens_jupiter
    rw [show max_retries = 2 + 1 from rfl, swapLoop_dust hz oracle im om pf 2 s]
  · unfold swap_tokens_jupiter
    rw [show max_retries = 2 + 1 from rfl,
      swapLoop_retry hz (r := 2) (h 0 (by decide)) (by decide) im om pf s,
      swapLoop_retry hz (r := 1) (h 1 (by decide)) (by decide) im om pf (bumpRetry s 1),
      swapLoop_lastFail hz (r := 0) (h 2 (by decide)) (by decide) im om pf
        (bumpRetry (bumpRetry s 1) 1)]

/-- The scenario of the spec's retry property: the gateway fails on the first
two attempts and confirms on the third.  The call succeeds and the retry
counter grows by exactly 2. -/
theorem swap_tokens_jupiter_thirdTry {oracle : ℕ → AttemptOutcome}
    {amount : ℚ} {sig : ℕ} {outl feel : ℤ}
    (hz : pyInt (amount * 10 ^ 6) ≠ 0)
    (h0 : (oracle 0).isConfirmed = false) (h1 : (oracle 1).isConfirmed = false)
    (h2 : oracle 2 = .confirmed sig outl feel)
    (im om : String) (pf : ℕ) (s : Stats) :
    swap_tokens_jupiter oracle im om amount pf s
      = (pushRecord (bumpRetry s 2) (mkUltraRecord im om amount pf 2 sig outl feel),
         some (sig, (outl : ℚ) / 10 ^ 6, (feel : ℚ) / 10 ^ 9)) := by
  unfold swap_tokens_jupiter
  rw [show max_retries = 2 + 1 from rfl,
    swapLoop_retry hz (r := 2) h0 (by decide) im om pf s,
    swapLoop_retry hz (r := 1) h1 (by decide) im om pf (bumpRetry s 1),
    show bumpRetry (bumpRetry s 1) 1 = bumpRetry s 2 from by simp [bumpRetry],
    swapLoop_confirmed hz (r := 0) h2 im om pf (bumpRetry s 2)]
  rfl

/-- The ultra swap call consults the oracle only on attempts `0`, `1`, `2`:
two oracles agreeing there produce identical results. -/
theorem swap_tokens_jupiter_oracle_congr {oracle oracle' : ℕ → AttemptOutcome}
    (h0 : oracle 0 = oracle' 0) (h1 : oracle 1 = oracle' 1)
    (h2 : oracle 2 = oracle' 2) (im om : String) (amount : ℚ) (pf : ℕ)
    (s : Stats) :
    swap_tokens_jupiter oracle im om amount pf s
      = swap_tokens_jupiter oracle' im om amount pf s := by
  unfold swap_tokens_jupiter
  simp only [swapLoop, max_retries]
  norm_num [h0, h1, h2]

end SolanaUltra

namespace Polygon

/-- Classification of one polygon cycle environment: does the cycle succeed
(balance above dust, both legs confirmed with nonzero wei amounts)? -/
def cycleSuccess (env : CycleEnv) (use_full_balance : Bool) (fixed_amount : ℚ) : Bool :=
  !decide (env.usdc_balance < 1 / 10)
    && legOk env.leg1 (leg1Size env.usdc_balance use_full_balance fixed_amount) 6
    && legOk env.leg2 (leg2Size env.usdt_balance) 6

/-- A cycle whose first leg goes through but whose second leg fails: such a
cycle is counted as failed yet contributes one SwapRecord. -/
def cycleOneLeg (env : CycleEnv) (use_full_balance : Bool) (fixed_amount : ℚ) : Bool :=
  !decide (env.usdc_balance < 1 / 10)
    && legOk env.leg1 (leg1Size env.usdc_balance use_full_balance fixed_amount) 6
    && !legOk env.leg2 (leg2Size env.usdt_balance) 6

/-- Number of SwapRecords one cycle contributes. -/
def cycleRecords (env : CycleEnv) (use_full_balance : Bool) (fixed_amount : ℚ) : ℕ :=
  if env.usdc_balance < 1 / 10 then 0
  else if legOk env.leg1 (leg1Size env.usdc_balance use_full_balance fixed_amount) 6 then
    if legOk env.leg2 (leg2Size env.usdt_balance) 6 then 2 else 1
  else 0

theorem runCycle_dust {env : CycleEnv} (hd : env.usdc_balance < 1 / 10)
    (f : Bool) (fx : ℚ) (rs : RunState) :
    runCycle env f fx rs = { rs with failed_cycles := rs.failed_cycles + 1 } := by
  unfold runCycle
  rw [if_pos hd]

theorem runCycle_leg1Fail {env : CycleEnv} {f : Bool} {fx : ℚ}
    (hd : ¬ env.usdc_balance < 1 / 10)
    (h1 : legOk env.leg1 (leg1Size env.usdc_balance f fx) 6 = false)
    (rs : RunState) :
    runCycle env f fx rs = { rs with failed_cycles := rs.failed_cycles + 1 } := by
  unfold runCycle
  rw [if_neg hd]
  simp only [swap_tokens_none h1 USDC_ADDRESS USDT_ADDRESS 6 rs.stats]

theorem runCycle_leg2Fail {env : CycleEnv} {f : Bool} {fx : ℚ}
    (hd : ¬ env.usdc_balance < 1 / 10)
    (h1 : legOk env.leg1 (leg1Size env.usdc_balance f fx) 6 = true)
    (h2 : legOk env.leg2 (leg2Size env.usdt_balance) 6 = false)
    (rs : RunState) :
    ∃ r1 : SwapRecord,
      runCycle env f fx rs
          = { rs with stats := pushRecord rs.stats r1,
                      failed_cycles := rs.failed_cycles + 1 }
        ∧ r1.amountIn = leg1Size env.usdc_balance f fx := by
  obtain ⟨r1, res1, hs1, hamt⟩ :=
    swap_tokens_some h1 USDC_ADDRESS USDT_ADDRESS 6 rs.stats
  refine ⟨r1, ?_, hamt⟩
  unfold runCycle
  rw [if_neg hd]
  simp only [hs1, swap_tokens_none h2 USDT_ADDRESS USDC_ADDRESS 6 (pushRecord rs.stats r1)]

theorem runCycle_success {env : CycleEnv} {f : Bool} {fx : ℚ}
    (hd : ¬ env.usdc_balance < 1 / 10)
    (h1 : legOk env.leg1 (leg1Size env.usdc_balance f fx) 6 = true)
    (h2 : legOk env.leg2 (leg2Size env.usdt_balance) 6 = true)
    (rs : RunState) :
    ∃ r1 r2 : SwapRecord,
      runCycle env f fx rs
          = { rs with stats := pushRecord (pushRecord rs.stats r1) r2,
                      successful_cycles := rs.successful_cycles + 1 }
        ∧ r1.amountIn = leg1Size env.usdc_balance f fx
        ∧ r2.amountIn = leg2Size env.usdt_balance := by
  obtain ⟨r1, res1, hs1, hamt1⟩ :=
    swap_tokens_some h1 USDC_ADDRESS USDT_ADDRESS 6 rs.stats
  obtain ⟨r2, res2, hs2, hamt2⟩ :=
    swap_tokens_some h2 USDT_ADDRESS USDC_ADDRESS 6 (pushRecord rs.stats r1)
  refine ⟨r1, r2, ?_, hamt1, hamt2⟩
  unfold runCycle
  rw [if_neg hd]
  simp only [hs1, hs2]

theorem runCycle_spec (env : CycleEnv) (f : Bool) (fx : ℚ) (rs : RunState) :
    (runCycle env f fx rs).successful_cycles
        = rs.successful_cycles + (if cycleSuccess env f fx then 1 else 0)
      ∧ (runCycle env f fx rs).failed_cycles
        = rs.failed_cycles + (if cycleSuccess env f fx then 0 else 1)
      ∧ (runCycle env f fx rs).stats.transaction_count
        = rs.stats.transaction_count + cycleRecords env f fx
      ∧ (volumeInv rs.stats → volumeInv (runCycle env f fx rs).stats)
      ∧ (countInv rs.stats → countInv (runCycle env f fx rs).stats) := by
  by_cases hd : env.usdc_balance < 1 / 10
  · have hnle : ¬ (10 : ℚ)⁻¹ ≤ env.usdc_balance := by
      rw [inv_eq_one_div]; exact not_le.mpr hd
    have hcs : cycleSuccess env f fx = false := by simp [cycleSuccess, hd, hnle]
    have hcr : cycleRecords env f fx = 0 := by simp [cycleRecords, hd, hnle]
    rw [runCycle_dust hd f fx rs, hcs, hcr]
    exact ⟨rfl, rfl, rfl, fun hv => hv, fun hc => hc⟩
  · by_cases h1 : legOk env.leg1 (leg1Size env.usdc_balance f fx) 6
    · have hle : (10 : ℚ)⁻¹ ≤ env.usdc_balance := by
        rw [inv_eq_one_div]; exact not_lt.mp hd
      by_cases h2 : legOk env.leg2 (leg2Size env.usdt_balance) 6
      · have hcs : cycleSuccess env f fx = true := by
          simp [cycleSuccess, hd, hle, h1, h2]
        have hcr : cycleRecords env f fx = 2 := by
          simp [cycleRecords, hd, hle, h1, h2]
        obtain ⟨r1, r2, hrw, _, _⟩ := runCycle_success hd h1 h2 rs
        rw [hrw, hcs, hcr]
        refine ⟨rfl, rfl, ?_, ?_, ?_⟩
        · simp [pushRecord]
        · exact fun hv => volumeInv_pushRecord (volumeInv_pushRecord hv r1) r2
        · exact fun hc => countInv_pushRecord (countInv_pushRecord hc r1) r2
      · have hcs : cycleSuccess env f fx = false := by simp [cycleSuccess, h2]
        have hcr : cycleRecords env f fx = 1 := by
          simp [cycleRecords, hd, hle, h1, Bool.of_not_eq_true h2]
        obtain ⟨r1, hrw, _⟩ := runCycle_leg2Fail hd h1 (Bool.of_not_eq_true h2) rs
        rw [hrw, hcs, hcr]
        refine ⟨rfl, rfl, ?_, ?_, ?_⟩
        · simp [pushRecord]
        · exact fun hv => volumeInv_pushRecord hv r1
        · exact fun hc => countInv_pushRecord hc r1
    · have hle : (10 : ℚ)⁻¹ ≤ env.usdc_balance := by
        rw [inv_eq_one_div]; exact not_lt.mp hd
      have hcs : cycleSuccess env f fx = false := by
        simp [cycleSuccess, Bool.of_not_eq_true h1]
      have hcr : cycleRecords env f fx = 0 := by
        simp [cycleRecords, hd, hle, Bool.of_not_eq_true h1]
      rw [runCycle_leg1Fail hd (Bool.of_not_eq_true h1) rs, hcs, hcr]
      exact ⟨rfl, rfl, rfl, fun hv => hv, fun hc => hc⟩

theorem runCycles_spec (f : Bool) (fx : ℚ) (envs : List CycleEnv) :
    ∀ rs : RunState,
      (runCycles envs f fx rs).successful_cycles
          = rs.successful_cycles + envs.countP (fun e => cycleSuccess e f fx)
        ∧ (runCycles envs f fx rs).failed_cycles
          = rs.failed_cycles + envs.countP (fun e => !cycleSuccess e f fx)
        ∧ (runCycles envs f fx rs).stats.transaction_count
          = rs.stats.transaction_count + (envs.map (fun e => cycleRecords e f fx)).sum
        ∧ (volumeInv rs.stats → volumeInv (runCycles envs f fx rs).stats)
        ∧ (countInv rs.stats → countInv (runCycles envs f fx rs).stats) := by
  induction envs with
  | nil => intro rs; simp [runCycles]
  | cons env envs ih =>
      intro rs
      have hstep := runCycle_spec env f fx rs
      have hrest := ih (runCycle env f fx rs)
      have hun : runCycles (env :: envs) f fx rs
          = runCycles envs f fx (runCycle env f fx rs) := rfl
      rw [hun]
      obtain ⟨ha, hb, hc, hv, hcnt⟩ := hstep
      obtain ⟨ha2, hb2, hc2, hv2, hcnt2⟩ := hrest
      refine ⟨?_, ?_, ?_, fun h => hv2 (hv h), fun h => hcnt2 (hcnt h)⟩
      · rw [ha2, ha, List.countP_cons]
        by_cases hs : cycleSuccess env f fx <;> simp [hs] <;> try omega
      · rw [hb2, hb, List.countP_cons]
        by_cases hs : cycleSuccess env f fx <;> simp [hs] <;> try omega
      · rw [hc2, hc, List.map_cons, List.sum_cons]
        omega

/-- Per-cycle record count, re-expressed through the success / one-leg
classification. -/
theorem cycleRecords_eq (env : CycleEnv) (f : Bool) (fx : ℚ) :
    cycleRecords env f fx
      = 2 * (if cycleSuccess env f fx then 1 else 0)
        + (if cycleOneLeg env f fx then 1 else 0) := by
  by_cases hd : env.usdc_balance < 1 / 10
  · have hnle : ¬ (10 : ℚ)⁻¹ ≤ env.usdc_balance := by
      rw [inv_eq_one_div]; exact not_le.mpr hd
    simp [cycleRecords, cycleSuccess, cycleOneLeg, hd, hnle]
  · have hle : (10 : ℚ)⁻¹ ≤ env.usdc_balance := by
      rw [inv_eq_one_div]; exact not_lt.mp hd
    by_cases h1 : legOk env.leg1 (leg1Size env.usdc_balance f fx) 6
      <;> by_cases h2 : legOk env.leg2 (leg2Size env.usdt_balance) 6
      <;> simp [cycleRecords, cycleSuccess, cycleOneLeg, hd, hle, h1, h2]

theorem sum_cycleRecords (f : Bool) (fx : ℚ) (envs : List CycleEnv) :
    (envs.map (fun e => cycleRecords e f fx)).sum
      = 2 * envs.countP (fun e => cycleSuccess e f fx)
        + envs.countP (fun e => cycleOneLeg e f fx) := by
  induction envs with
  | nil => simp
  | cons env envs ih =>
      rw [List.map_cons, List.sum_cons, ih, cycleRecords_eq env f fx,
        List.countP_cons, List.countP_cons]
      by_cases hs : cycleSuccess env f fx
        <;> by_cases ho : cycleOneLeg env f fx
        <;> simp [hs, ho] <;> omega

end Polygon

theorem countP_add_countP_not {α : Type} (p : α → Bool) (l : List α) :
    l.countP p + l.countP (fun a => !(p a)) = l.length := by
  induction l with
  | nil => simp
  | cons a l ih =>
      rw [List.countP_cons, List.countP_cons, List.length_cons]
      by_cases h : p a <;> simp [h] <;> omega

/-! ### Claim theorems -/

/-- C3: at every point during a run, `total_volume` equals the sum of
`amount_in` over all recorded SwapRecords; it changes only when a swap is
confirmed and recorded, and then by exactly that swap's input amount, so for
non-negative amounts it only increases.  Stated for the cited swap operations
(polygon `swap_tokens`, ultra `swap_tokens_jupiter`) and for the polygon
cycle loop. -/
theorem C3_total_volume_invariant :
    volumeInv freshStats
    ∧ (∀ (o : AttemptOutcome) (tin tout : String) (amt : ℚ) (din dout : ℕ) (s : Stats),
        (volumeInv s → volumeInv (Polygon.swap_tokens o tin tout amt din dout s).1)
        ∧ ((Polygon.swap_tokens o tin tout amt din dout s).1.total_volume
              = s.total_volume + amt
            ∧ (Polygon.swap_tokens o tin tout amt din dout s).2.isSome = true
          ∨ (Polygon.swap_tokens o tin tout amt din dout s).1.total_volume
              = s.total_volume
            ∧ (Polygon.swap_tokens o tin tout amt din dout s).2 = none)
        ∧ (0 ≤ amt →
            s.total_volume ≤ (Polygon.swap_tokens o tin tout amt din dout s).1.total_volume))
    ∧ (∀ (oracle : ℕ → AttemptOutcome) (im om : String) (amt : ℚ) (pf : ℕ) (s : Stats),
        (volumeInv s → volumeInv (SolanaUltra.swap_tokens_jupiter oracle im om amt pf s).1)
        ∧ ((SolanaUltra.swap_tokens_jupiter oracle im om amt pf s).1.total_volume
              = s.total_volume + amt
            ∧ (SolanaUltra.swap_tokens_jupiter oracle im om amt pf s).2.isSome = true
          ∨ (SolanaUltra.swap_tokens_jupiter oracle im om amt pf s).1.total_volume
              = s.total_volume
            ∧ (SolanaUltra.swap_tokens_jupiter oracle im om amt pf s).2 = none)
        ∧ (0 ≤ amt →
            s.total_volume
              ≤ (SolanaUltra.swap_tokens_jupiter oracle im om amt pf s).1.total_volume))
    ∧ (∀ (env : Polygon.CycleEnv) (f : Bool) (fx : ℚ) (rs : RunState),
        volumeInv rs.stats → volumeInv (Polygon.runCycle env f fx rs).stats) := by
  refine ⟨volumeInv_freshStats, ?_, ?_, ?_⟩
  · intro o tin tout amt din dout s
    by_cases h : Polygon.legOk o amt din
    · obtain ⟨r, res, hs, hamt⟩ := Polygon.swap_tokens_some h tin tout dout s
      rw [hs]
      refine ⟨fun hv => volumeInv_pushRecord hv r, Or.inl ⟨?_, rfl⟩, ?_⟩
      · simp [pushRecord, hamt]
      · intro h0
        simp only [pushRecord, hamt]
        linarith
    · rw [Polygon.swap_tokens_none (Bool.of_not_eq_true h) tin tout dout s]
      exact ⟨fun hv => hv, Or.inr ⟨rfl, rfl⟩, fun _ => le_refl _⟩
  · intro oracle im om amt pf s
    rcases SolanaUltra.swap_tokens_jupiter_cases oracle im om amt pf s with
      ⟨k, hk, hs⟩ | ⟨k, hk, r, res, hs, hamt⟩
    · rw [hs]
      exact ⟨fun hv => volumeInv_bumpRetry hv k, Or.inr ⟨rfl, rfl⟩, fun _ => le_refl _⟩
    · rw [hs]
      refine ⟨fun hv => volumeInv_pushRecord (volumeInv_bumpRetry hv k) r,
        Or.inl ⟨?_, rfl⟩, ?_⟩
      · simp [pushRecord, bumpRetry, hamt]
      · intro h0
        simp only [pushRecord, bumpRetry, hamt]
        linarith
  · intro env f fx rs
    exact (Polygon.runCycle_spec env f fx rs).2.2.2.1

/-- C3 witness: the polygon invariant-preservation clause applied to one
confirmed swap from fresh statistics. -/
theorem C3_total_volume_invariant_witness :
    volumeInv (Polygon.swap_tokens (.confirmed 1 4990000 2000000000000000)
      Polygon.USDC_ADDRESS Polygon.USDT_ADDRESS 5 6 6 freshStats).1
    ∧ (0 : ℚ) ≤ 5 ∧ volumeInv freshStats :=
  ⟨(C3_total_volume_invariant.2.1 (.confirmed 1 4990000 2000000000000000)
      Polygon.USDC_ADDRESS Polygon.USDT_ADDRESS 5 6 6 freshStats).1
      (by simp [volumeInv, freshStats]),
   by norm_num, by simp [volumeInv, freshStats]⟩

/-- C8: `transaction_count` always equals the length of the recorded
SwapRecord list: each of the three swap operations appends `d` records and
increments `transaction_count` by exactly `d.length` (with `d.length ≤ 1`),
touching the list in no other way, and the polygon cycle loop preserves the
invariant. -/
theorem C8_transaction_count_invariant :
    countInv freshStats
    ∧ (∀ (o : AttemptOutcome) (tin tout : String) (amt : ℚ) (din dout : ℕ) (s : Stats),
        ∃ d : List SwapRecord,
          (Polygon.swap_tokens o tin tout amt din dout s).1.transactions
              = s.transactions ++ d
            ∧ (Polygon.swap_tokens o tin tout amt din dout s).1.transaction_count
              = s.transaction_count + d.length
            ∧ d.length ≤ 1)
    ∧ (∀ (o : AttemptOutcome) (im om : String) (amt : ℚ) (s : Stats),
        ∃ d : List SwapRecord,
          (SolanaOrig.swap_tokens_jupiter o im om amt s).1.transactions
              = s.transactions ++ d
            ∧ (SolanaOrig.swap_tokens_jupiter o im om amt s).1.transaction_count
              = s.transaction_count + d.length
            ∧ d.length ≤ 1)
    ∧ (∀ (oracle : ℕ → AttemptOutcome) (im om : String) (amt : ℚ) (pf : ℕ) (s : Stats),
        ∃ d : List SwapRecord,
          (SolanaUltra.swap_tokens_jupiter oracle im om amt pf s).1.transactions
              = s.transactions ++ d
            ∧ (SolanaUltra.swap_tokens_jupiter oracle im om amt pf s).1.transaction_count
              = s.transaction_count + d.length
            ∧ d.length ≤ 1)
    ∧ (∀ (env : Polygon.CycleEnv) (f : Bool) (fx : ℚ) (rs : RunState),
        countInv rs.stats → countInv (Polygon.runCycle env f fx rs).stats) := by
  refine ⟨countInv_freshStats, ?_, ?_, ?_, ?_⟩
  · intro o tin tout amt din dout s
    by_cases h : Polygon.legOk o amt din
    · obtain ⟨r, res, hs, _⟩ := Polygon.swap_tokens_some h tin tout dout s
      exact ⟨[r], by rw [hs]; exact ⟨rfl, rfl, by norm_num⟩⟩
    · rw [Polygon.swap_tokens_none (Bool.of_not_eq_true h) tin tout dout s]
      exact ⟨[], by simp⟩
  · intro o im om amt s
    by_cases hz : pyInt (amt * 10 ^ 6) = 0
    · rw [SolanaOrig.swap_tokens_jupiter_dust hz o im om s]
      exact ⟨[], by simp⟩
    · cases o with
      | fail =>
          rw [SolanaOrig.swap_tokens_jupiter_fail im om s]
          exact ⟨[], by simp⟩
      | timeout sig outl =>
          rw [SolanaOrig.swap_tokens_jupiter_timeout hz sig outl im om s]
          exact ⟨[], by simp⟩
      | confirmed sig outl feel =>
          rw [SolanaOrig.swap_tokens_jupiter_confirmed hz sig outl feel im om s]
          exact ⟨[_], ⟨rfl, rfl, by norm_num⟩⟩
  · intro oracle im om amt pf s
    rcases SolanaUltra.swap_tokens_jupiter_cases oracle im om amt pf s with
      ⟨k, hk, hs⟩ | ⟨k, hk, r, res, hs, _⟩
    · rw [hs]
      exact ⟨[], by simp [bumpRetry]⟩
    · rw [hs]
      exact ⟨[r], ⟨by simp [pushRecord, bumpRetry], by simp [pushRecord, bumpRetry],
        by norm_num⟩⟩
  · intro env f fx rs
    exact (Polygon.runCycle_spec env f fx rs).2.2.2.2

/-- C8 witness: the polygon clause at a concrete confirmed swap, and the
cycle-loop clause for fresh statistics. -/
theorem C8_transaction_count_invariant_witness :
    (∃ d : List SwapRecord,
      (Polygon.swap_tokens (.confirmed 1 4990000 2000000000000000)
          Polygon.USDC_ADDRESS Polygon.USDT_ADDRESS 5 6 6 freshStats).1.transactions
          = freshStats.transactions ++ d
        ∧ (Polygon.swap_tokens (.confirmed 1 4990000 2000000000000000)
            Polygon.USDC_ADDRESS Polygon.USDT_ADDRESS 5 6 6 freshStats).1.transaction_count
          = freshStats.transaction_count + d.length
        ∧ d.length ≤ 1)
    ∧ countInv (Polygon.runCycle ⟨5, .fail, 5, .fail⟩ true 50 ⟨freshStats, 0, 0⟩).stats :=
  ⟨C8_transaction_count_invariant.2.1 (.confirmed 1 4990000 2000000000000000)
      Polygon.USDC_ADDRESS Polygon.USDT_ADDRESS 5 6 6 freshStats,
   C8_transaction_count_invariant.2.2.2.2 ⟨5, .fail, 5, .fail⟩ true 50 ⟨freshStats, 0, 0⟩
      (by simp [countInv, freshStats])⟩

/-- C9: whenever a swap call reports failure (`None`), the statistics are
exactly as before the call — for the ultra variant only the retry counter may
have grown (by at most `max_retries - 1`). -/
theorem C9_failed_swap_preserves_stats :
    (∀ (o : AttemptOutcome) (tin tout : String) (amt : ℚ) (din dout : ℕ) (s : Stats),
        (Polygon.swap_tokens o tin tout amt din dout s).2 = none →
        (Polygon.swap_tokens o tin tout amt din dout s).1 = s)
    ∧ (∀ (oracle : ℕ → AttemptOutcome) (im om : String) (amt : ℚ) (pf : ℕ) (s : Stats),
        (SolanaUltra.swap_tokens_jupiter oracle im om amt pf s).2 = none →
        ∃ k ≤ SolanaUltra.max_retries - 1,
          (SolanaUltra.swap_tokens_jupiter oracle im om amt pf s).1
              = bumpRetry s k
            ∧ (SolanaUltra.swap_tokens_jupiter oracle im om amt pf s).1.total_volume
              = s.total_volume
            ∧ (SolanaUltra.swap_tokens_jupiter oracle im om amt pf s).1.total_fees_paid
              = s.total_fees_paid
            ∧ (SolanaUltra.swap_tokens_jupiter oracle im om amt pf s).1.transaction_count
              = s.transaction_count
            ∧ (SolanaUltra.swap_tokens_jupiter oracle im om amt pf s).1.transactions
              = s.transactions) := by
  constructor
  · intro o tin tout amt din dout s hnone
    by_cases h : Polygon.legOk o amt din
    · obtain ⟨r, res, hs, _⟩ := Polygon.swap_tokens_some h tin tout dout s
      rw [hs] at hnone
      simp at hnone
    · rw [Polygon.swap_tokens_none (Bool.of_not_eq_true h) tin tout dout s]
  · intro oracle im om amt pf s hnone
    rcases SolanaUltra.swap_tokens_jupiter_cases oracle im om amt pf s with
      ⟨k, hk, hs⟩ | ⟨k, hk, r, res, hs, _⟩
    · exact ⟨k, hk, by rw [hs], by rw [hs]; rfl, by rw [hs]; rfl, by rw [hs]; rfl,
        by rw [hs]; rfl⟩
    · rw [hs] at hnone
      simp at hnone

/-- C9 witness: a polygon swap whose gateway leg fails, and an ultra swap
whose three attempts all fail, from a concrete statistics state. -/
theorem C9_failed_swap_preserves_stats_witness :
    (Polygon.swap_tokens .fail Polygon.USDC_ADDRESS Polygon.USDT_ADDRESS 5 6 6
        freshStats).1 = freshStats
    ∧ ∃ k ≤ SolanaUltra.max_retries - 1,
        (SolanaUltra.swap_tokens_jupiter (fun _ => .fail) SolanaUltra.USDC_MINT
            SolanaUltra.USDCE_MINT 4 5000 freshStats).1 = bumpRetry freshStats k
          ∧ (SolanaUltra.swap_tokens_jupiter (fun _ => .fail) SolanaUltra.USDC_MINT
              SolanaUltra.USDCE_MINT 4 5000 freshStats).1.total_volume
            = freshStats.total_volume
          ∧ (SolanaUltra.swap_tokens_jupiter (fun _ => .fail) SolanaUltra.USDC_MINT
              SolanaUltra.USDCE_MINT 4 5000 freshStats).1.total_fees_paid
            = freshStats.total_fees_paid
          ∧ (SolanaUltra.swap_tokens_jupiter (fun _ => .fail) SolanaUltra.USDC_MINT
              SolanaUltra.USDCE_MINT 4 5000 freshStats).1.transaction_count
            = freshStats.transaction_count
          ∧ (SolanaUltra.swap_tokens_jupiter (fun _ => .fail) SolanaUltra.USDC_MINT
              SolanaUltra.USDCE_MINT 4 5000 freshStats).1.transactions
            = freshStats.transactions :=
  ⟨C9_failed_swap_preserves_stats.1 .fail Polygon.USDC_ADDRESS Polygon.USDT_ADDRESS
      5 6 6 freshStats (by norm_num [Polygon.swap_tokens, pyInt]),
   C9_failed_swap_preserves_stats.2 (fun _ => .fail) SolanaUltra.USDC_MINT
      SolanaUltra.USDCE_MINT 4 5000 freshStats
      (SolanaUltra.swap_tokens_jupiter_exhausted (by intro i _; rfl) SolanaUltra.USDC_MINT
        SolanaUltra.USDCE_MINT 4 5000 freshStats)⟩

/-- C10: when the requested amount converts to zero base units
(`int(amount * 10^decimals) == 0`), each swap call fails immediately with the
state untouched (no retry consumed), and the result does not depend on the
gateway at all — the quote and submission steps are never reached. -/
theorem C10_zero_amount_guard :
    (∀ (oracle oracle' : ℕ → AttemptOutcome) (im om : String) (amt : ℚ) (pf : ℕ) (s : Stats),
        pyInt (amt * 10 ^ 6) = 0 →
        SolanaUltra.swap_tokens_jupiter oracle im om amt pf s = (s, none)
          ∧ SolanaUltra.swap_tokens_jupiter oracle im om amt pf s
            = SolanaUltra.swap_tokens_jupiter oracle' im om amt pf s)
    ∧ (∀ (o o' : AttemptOutcome) (tin tout : String) (amt : ℚ) (din dout : ℕ) (s : Stats),
        pyInt (amt * 10 ^ din) = 0 →
        Polygon.swap_tokens o tin tout amt din dout s = (s, none)
          ∧ Polygon.swap_tokens o tin tout amt din dout s
            = Polygon.swap_tokens o' tin tout amt din dout s) := by
  constructor
  · intro oracle oracle' im om amt pf s hz
    have h : ∀ orc : ℕ → AttemptOutcome,
        SolanaUltra.swap_tokens_jupiter orc im om amt pf s = (s, none) := by
      intro orc
      unfold SolanaUltra.swap_tokens_jupiter
      rw [show SolanaUltra.max_retries = 2 + 1 from rfl,
        SolanaUltra.swapLoop_dust hz orc im om pf 2 s]
    rw [h oracle, h oracle']
    exact ⟨rfl, rfl⟩
  · intro o o' tin tout amt din dout s hz
    have h : ∀ oc : AttemptOutcome,
        Polygon.swap_tokens oc tin tout amt din dout s = (s, none) := by
      intro oc
      unfold Polygon.swap_tokens
      simp [hz]
    rw [h o, h o']
    exact ⟨rfl, rfl⟩

/-- C10 witness: an amount of `10⁻⁷` (below one base unit at 6 decimals)
makes both swap calls fail immediately, independently of the gateway. -/
theorem C10_zero_amount_guard_witness :
    (SolanaUltra.swap_tokens_jupiter
        (fun _ => .confirmed 7 4000000 5000) SolanaUltra.USDC_MINT
        SolanaUltra.USDCE_MINT (1 / 10 ^ 7) 5000 freshStats = (freshStats, none))
    ∧ Polygon.swap_tokens (.confirmed 1 4990000 2000000000000000)
        Polygon.USDC_ADDRESS Polygon.USDT_ADDRESS (1 / 10 ^ 7) 6 6 freshStats
        = (freshStats, none) :=
  ⟨(C10_zero_amount_guard.1 (fun _ => .confirmed 7 4000000 5000) (fun _ => .fail)
      SolanaUltra.USDC_MINT SolanaUltra.USDCE_MINT (1 / 10 ^ 7) 5000 freshStats
      (by norm_num [pyInt])).1,
   (C10_zero_amount_guard.2 (.confirmed 1 4990000 2000000000000000) .fail
      Polygon.USDC_ADDRESS Polygon.USDT_ADDRESS (1 / 10 ^ 7) 6 6 freshStats
      (by norm_num [pyInt])).1⟩

/-- C4: the ultra retry wrapper makes at most `max_retries = 3` attempts (the
result depends only on the first three oracle answers), reports failure after
all attempts are exhausted, and in the fail-fail-confirm scenario succeeds
with `retry_count` increased by exactly 2. -/
theorem C4_retry_policy :
    (∀ (oracle oracle' : ℕ → AttemptOutcome) (im om : String) (amt : ℚ) (pf : ℕ) (s : Stats),
        oracle 0 = oracle' 0 → oracle 1 = oracle' 1 → oracle 2 = oracle' 2 →
        SolanaUltra.swap_tokens_jupiter oracle im om amt pf s
          = SolanaUltra.swap_tokens_jupiter oracle' im om amt pf s)
    ∧ (∀ (oracle : ℕ → AttemptOutcome) (im om : String) (amt : ℚ) (pf : ℕ) (s : Stats),
        (∀ i, i < SolanaUltra.max_retries → (oracle i).isConfirmed = false) →
        (SolanaUltra.swap_tokens_jupiter oracle im om amt pf s).2 = none)
    ∧ (∀ (oracle : ℕ → AttemptOutcome) (im om : String) (amt : ℚ) (pf : ℕ) (s : Stats)
        (sig : ℕ) (outl feel : ℤ),
        pyInt (amt * 10 ^ 6) ≠ 0 →
        (oracle 0).isConfirmed = false → (oracle 1).isConfirmed = false →
        oracle 2 = .confirmed sig outl feel →
        (SolanaUltra.swap_tokens_jupiter oracle im om amt pf s).2
            = some (sig, (outl : ℚ) / 10 ^ 6, (feel : ℚ) / 10 ^ 9)
          ∧ (SolanaUltra.swap_tokens_jupiter oracle im om amt pf s).1.retry_count
            = s.retry_count + 2) := by
  refine ⟨?_, ?_, ?_⟩
  · intro oracle oracle' im om amt pf s h0 h1 h2
    exact SolanaUltra.swap_tokens_jupiter_oracle_congr h0 h1 h2 im om amt pf s
  · intro oracle im om amt pf s h
    exact SolanaUltra.swap_tokens_jupiter_exhausted h im om amt pf s
  · intro oracle im om amt pf s sig outl feel hz h0 h1 h2
    rw [SolanaUltra.swap_tokens_jupiter_thirdTry hz h0 h1 h2 im om pf s]
    exact ⟨rfl, by simp [pushRecord, bumpRetry]⟩

/-- C4 witness: a gateway failing on attempts 0 and 1 and confirming on
attempt 2; the call succeeds and the retry counter grows from 0 to 2. -/
theorem C4_retry_policy_witness :
    (SolanaUltra.swap_tokens_jupiter
          (fun i => if i < 2 then .fail else .confirmed 7 4000000 5000)
          SolanaUltra.USDC_MINT SolanaUltra.USDCE_MINT 4 5000 freshStats).2
        = some (7, ((4000000 : ℤ) : ℚ) / 10 ^ 6, ((5000 : ℤ) : ℚ) / 10 ^ 9)
    ∧ (SolanaUltra.swap_tokens_jupiter
          (fun i => if i < 2 then .fail else .confirmed 7 4000000 5000)
          SolanaUltra.USDC_MINT SolanaUltra.USDCE_MINT 4 5000 freshStats).1.retry_count
        = freshStats.retry_count + 2 :=
  C4_retry_policy.2.2
    (fun i => if i < 2 then .fail else .confirmed 7 4000000 5000)
    SolanaUltra.USDC_MINT SolanaUltra.USDCE_MINT 4 5000 freshStats 7 4000000 5000
    (by norm_num [pyInt]) (by rfl) (by rfl) (by rfl)

/-- C2 counterexample: in the original solana variant, a swap leg whose
submission is accepted but whose confirmation wait times out is reported to
the caller as a success tuple, not as a failure. -/
theorem C2_counterexample :
    ((SolanaOrig.swap_tokens_jupiter (.timeout 9 990000)
        SolanaOrig.USDC_MINT SolanaOrig.USDT_MINT 1 freshStats).2).isSome = true := by
  norm_num [SolanaOrig.swap_tokens_jupiter, pyInt]

/-- C2 (amended): in the ultra variant a confirmation timeout raises, so a
leg all of whose attempts time out is reported as a failure; in the original
solana variant a confirmation timeout is returned to the caller as a success
tuple (signature, quoted output, fee estimate) with no statistic updated. -/
theorem C2_confirmation_timeout :
    (∀ (oracle : ℕ → AttemptOutcome) (im om : String) (amt : ℚ) (pf : ℕ) (s : Stats),
        (∀ i, i < SolanaUltra.max_retries → (oracle i).isTimeout = true) →
        (SolanaUltra.swap_tokens_jupiter oracle im om amt pf s).2 = none)
    ∧ (∀ (sig : ℕ) (outl : ℤ) (im om : String) (amt : ℚ) (s : Stats),
        pyInt (amt * 10 ^ 6) ≠ 0 →
        SolanaOrig.swap_tokens_jupiter (.timeout sig outl) im om amt s
          = (s, some (sig, (outl : ℚ) / 10 ^ 6, 5 / 10 ^ 6))) := by
  constructor
  · intro oracle im om amt pf s h
    refine SolanaUltra.swap_tokens_jupiter_exhausted ?_ im om amt pf s
    intro i hi
    have ht := h i hi
    cases hoi : oracle i <;> rw [hoi] at ht <;>
      simp_all [AttemptOutcome.isTimeout, AttemptOutcome.isConfirmed]
  · intro sig outl im om amt s hz
    exact SolanaOrig.swap_tokens_jupiter_timeout hz sig outl im om s

/-- C2 witness: every ultra attempt times out — the call returns `None`;
the original variant at the same timeout returns a success tuple. -/
theorem C2_confirmation_timeout_witness :
    (SolanaUltra.swap_tokens_jupiter (fun _ => .timeout 9 990000)
        SolanaUltra.USDC_MINT SolanaUltra.USDCE_MINT 1 5000 freshStats).2 = none
    ∧ SolanaOrig.swap_tokens_jupiter (.timeout 9 990000)
        SolanaOrig.USDC_MINT SolanaOrig.USDT_MINT 1 freshStats
        = (freshStats, some (9, ((990000 : ℤ) : ℚ) / 10 ^ 6, 5 / 10 ^ 6)) :=
  ⟨C2_confirmation_timeout.1 (fun _ => .timeout 9 990000) SolanaUltra.USDC_MINT
      SolanaUltra.USDCE_MINT 1 5000 freshStats (by intro i _; rfl),
   C2_confirmation_timeout.2 9 990000 SolanaOrig.USDC_MINT SolanaOrig.USDT_MINT 1
      freshStats (by norm_num [pyInt])⟩

/-- C6 counterexample: in the polygon variant with full-balance sizing, leg 1
swaps the whole queried balance (utilization factor 1) while leg 2 swaps 99%
of the queried balance of the intermediate asset — not the same factor. -/
theorem C6_counterexample :
    Polygon.leg1Size 5 true 50 = 5 * 1
    ∧ Polygon.leg2Size 5 = 5 * (99 / 100)
    ∧ ¬ ((5 : ℚ) * (99 / 100) = 5 * 1) := by
  refine ⟨by norm_num [Polygon.leg1Size], by norm_num [Polygon.leg2Size], by norm_num⟩

/-- C6 (amended): the leg-2 size is always the freshly queried balance of the
intermediate asset scaled by a fixed utilization factor (0.99 in the polygon
variant, 0.999 in the ultra variant); only the ultra variant in full-balance
mode applies the same factor to leg 1 — the polygon variant swaps the full
unscaled balance (or the capped fixed amount) on leg 1. -/
theorem C6_leg2_sizing :
    (∀ b : ℚ, Polygon.leg2Size b = b * (99 / 100))
    ∧ (∀ b : ℚ, SolanaUltra.leg2Size b = b * (999 / 1000))
    ∧ (∀ b fx : ℚ, SolanaUltra.leg1Size b true fx = b * (999 / 1000))
    ∧ (∀ b fx : ℚ, Polygon.leg1Size b true fx = b) :=
  ⟨fun _ => rfl, fun _ => rfl, fun _ _ => rfl, fun _ _ => rfl⟩

/-- C7: in fixed-amount sizing mode the leg-1 swap size is
`min(fixed_amount, balance)`, so it never exceeds the queried balance; at
balance 7 with configured amount 10 the swap size is 7 (both variants). -/
theorem C7_fixed_amount_capped :
    (∀ bal fx : ℚ, Polygon.leg1Size bal false fx ≤ bal)
    ∧ (∀ bal fx : ℚ, SolanaUltra.leg1Size bal false fx ≤ bal)
    ∧ Polygon.leg1Size 7 false 10 = 7
    ∧ SolanaUltra.leg1Size 7 false 10 = 7 := by
  refine ⟨fun bal fx => min_le_right fx bal, fun bal fx => min_le_right fx bal, ?_, ?_⟩
  · show min (10 : ℚ) 7 = 7
    norm_num
  · show min (10 : ℚ) 7 = 7
    norm_num

/-- C1 counterexample: one polygon cycle whose first leg confirms and whose
second leg fails leaves `transaction_count = 1` with `successful_cycles = 0`,
so the count is not twice the number of successful cycles. -/
theorem C1_counterexample :
    ((Polygon.run 5 1 true true
        [⟨5, .confirmed 1 4990000 2000000000000000, 499 / 100, .fail⟩]
        true 50 5 freshStats).map
      (fun r => (r.1.stats.transaction_count, r.1.successful_cycles)))
      = some (1, 0)
    ∧ (1 : ℕ) ≠ 2 * 0 := by
  constructor
  · norm_num [Polygon.run, Polygon.runCycles, Polygon.runCycle, Polygon.leg1Size,
      Polygon.leg2Size, Polygon.swap_tokens, pyInt, freshStats]
  · decide

/-- C1 (amended): after the polygon cycle loop completes, starting from fresh
statistics, `transaction_count = 2 * successful_cycles + p`, where `p` counts
the failed cycles whose first leg was confirmed but whose second leg failed
(each such cycle contributes exactly one SwapRecord; fully failed cycles
contribute zero, successful cycles exactly two).  The same identity transfers
to the statistics reported by `run`. -/
theorem C1_transaction_count (envs : List Polygon.CycleEnv) (f : Bool) (fx : ℚ) :
    (Polygon.runCycles envs f fx ⟨freshStats, 0, 0⟩).stats.transaction_count
        = 2 * (Polygon.runCycles envs f fx ⟨freshStats, 0, 0⟩).successful_cycles
          + envs.countP (fun e => Polygon.cycleOneLeg e f fx)
      ∧ ∀ (initial matic finB : ℚ),
          ((Polygon.run initial matic true true envs f fx finB freshStats).map
              (fun r => r.1.stats.transaction_count))
            = ((Polygon.run initial matic true true envs f fx finB freshStats).map
              (fun r => 2 * r.1.successful_cycles
                + envs.countP (fun e => Polygon.cycleOneLeg e f fx))) := by
  have hmain : (Polygon.runCycles envs f fx ⟨freshStats, 0, 0⟩).stats.transaction_count
      = 2 * (Polygon.runCycles envs f fx ⟨freshStats, 0, 0⟩).successful_cycles
        + envs.countP (fun e => Polygon.cycleOneLeg e f fx) := by
    obtain ⟨ha, hb, hc, _, _⟩ := Polygon.runCycles_spec f fx envs ⟨freshStats, 0, 0⟩
    rw [hc, ha, Polygon.sum_cycleRecords f fx envs]
    simp [freshStats]
  refine ⟨hmain, fun initial matic finB => ?_⟩
  unfold Polygon.run
  by_cases hi : initial < 1
  · rw [if_pos hi]
    rfl
  · rw [if_neg hi]
    simp only [Bool.not_true, Bool.false_eq_true, if_false, Option.map_some,
      Option.map_some', Option.some.injEq]
    exact hmain

/-- C5: the polygon run executes exactly `cycles` iterations — every cycle
increments exactly one of the two counters, no per-cycle error aborts the
loop — and then emits its report.  With a gateway failing on every call and
`cycles = 5`, the report shows 0 successful and 5 failed cycles. -/
theorem C5_run_completes :
    (∀ (initial matic : ℚ) (envs : List Polygon.CycleEnv) (f : Bool) (fx finB : ℚ),
        ¬ initial < 1 →
        ∃ rs : RunState, ∃ rep : Report,
          Polygon.run initial matic true true envs f fx finB freshStats
              = some (rs, rep)
            ∧ rep.successful_cycles + rep.failed_cycles = envs.length)
    ∧ ((Polygon.run 5 1 true true
          [⟨5, .fail, 5, .fail⟩, ⟨5, .fail, 5, .fail⟩, ⟨5, .fail, 5, .fail⟩,
           ⟨5, .fail, 5, .fail⟩, ⟨5, .fail, 5, .fail⟩]
          true 50 5 freshStats).map
        (fun r => (r.2.successful_cycles, r.2.failed_cycles))) = some (0, 5) := by
  constructor
  · intro initial matic envs f fx finB hi
    refine ⟨Polygon.runCycles envs f fx ⟨freshStats, 0, 0⟩,
      Polygon.generate_report initial finB
        (Polygon.runCycles envs f fx ⟨freshStats, 0, 0⟩).successful_cycles
        (Polygon.runCycles envs f fx ⟨freshStats, 0, 0⟩).failed_cycles
        (Polygon.runCycles envs f fx ⟨freshStats, 0, 0⟩).stats, ?_, ?_⟩
    · unfold Polygon.run
      rw [if_neg hi]
      rfl
    · obtain ⟨ha, hb, _, _, _⟩ := Polygon.runCycles_spec f fx envs ⟨freshStats, 0, 0⟩
      show (Polygon.runCycles envs f fx ⟨freshStats, 0, 0⟩).successful_cycles
          + (Polygon.runCycles envs f fx ⟨freshStats, 0, 0⟩).failed_cycles = envs.length
      rw [ha, hb]
      simp only [Nat.zero_add]
      exact countP_add_countP_not (fun e => Polygon.cycleSuccess e f fx) envs
  · norm_num [Polygon.run, Polygon.runCycles, Polygon.runCycle, Polygon.leg1Size,
      Polygon.leg2Size, Polygon.swap_tokens, Polygon.generate_report, pyInt, freshStats]

/-- C5 witness: the general clause instantiated at a concrete run with one
all-failing cycle environment. -/
theorem C5_run_completes_witness :
    ∃ rs : RunState, ∃ rep : Report,
      Polygon.run 5 1 true true [⟨5, .fail, 5, .fail⟩] true 50 5 freshStats
          = some (rs, rep)
        ∧ rep.successful_cycles + rep.failed_cycles
          = ([⟨5, .fail, 5, .fail⟩] : List Polygon.CycleEnv).length :=
  C5_run_completes.1 5 1 [⟨5, .fail, 5, .fail⟩] true 50 5 (by norm_num)

end VolumeBot
